import Mathlib

/-!
Shallow embedding of the long-poll client in `src/aiovk/poller.py`.

The `Poller` class is modelled as a state record; its coroutine methods
become pure state-transition functions.  User-supplied handler callbacks
are modelled by opaque identifiers (`Handler.user`) together with an
external behaviour map `Behavior` assigning each identifier, per update,
either normal completion (`none`) or a raised exception (`some e`); the
reserved `Poller._no_op` callback is `Handler.noOp`.  The installed error
handler is modelled, per its documented contract, as a function returning
a `Bool` ("handled or not"); observable actions of a dispatch (which
callback was invoked and with what, calls into the error policy, runs of
the hard-coded default reporter) are collected in a trace of `Ev` entries.
The `aiohttp` session is reduced to the two facts the code inspects:
whether the poller created it (`ownsSession`) and whether it is still
open (`sessionOpen`).  The background asyncio task is abstracted to a
lifecycle tag `TaskState`: `Task.cancel()` only requests cancellation —
the cancelled coroutine unwinds later, at its next suspension point — so
`stop_polling` moves an `active` task to `cancelling`, never directly to
`exited`.
-/

/-- Lifecycle of the background asyncio task created by `start_polling`.
`cancelling` means `cancel()` has been requested but the coroutine has not
yet unwound; `exited` means the coroutine has fully finished. -/
inductive TaskState where
  | active
  | cancelling
  | exited
deriving DecidableEq, Repr

/-- A callback value stored in `Poller.callbacks`: either the reserved
`Poller._no_op` or a user-supplied function, identified by an opaque id. -/
inductive Handler where
  | noOp : Handler
  | user : Nat → Handler
deriving DecidableEq, Repr

/-- An exception value: either one raised by a user callback, or a Python
`KeyError` from a failed dict lookup. -/
inductive Exn where
  | userExn : Nat → Exn
  | keyError : Exn
deriving DecidableEq, Repr

/-- One element of the response's `updates` list: a dict with a `type`
discriminant (the code reads `update['type']`) and an otherwise opaque
payload. -/
structure Update where
  type_ : String
  payload : Int
deriving DecidableEq, Repr

/-- Behaviour of the user callbacks: for each callback id and update,
`none` means the call returns normally, `some e` means it raises `e`. -/
def Behavior : Type := Nat → Update → Option Exn

/-- Running a stored callback: `Poller._no_op` accepts anything and never
raises; a user callback behaves as the ambient `Behavior` says. -/
def apply_handler (beh : Behavior) : Handler → Update → Option Exn
  | .noOp, _ => none
  | .user k, u => beh k u

/-- The exception `Poller.Failed`: a failure code and the optional `ts`
recovered from the body (`data.get('ts')`). -/
structure Failed where
  code : Int
  ts : Option Int
deriving DecidableEq, Repr

/-- A decoded JSON response body, keeping only the three keys the code
reads: `failed`, `ts` and `updates`; `none` models an absent key. -/
structure Body where
  failed? : Option Int
  ts? : Option Int
  updates? : Option (List Update)
deriving DecidableEq, Repr

/-- A value of the `params` dict: the Python values appearing there are
strings, ints, or `None` (the `ts` field can become `None`, see
`Poller._fail_handler`). -/
inductive PValue where
  | str : String → PValue
  | int : Int → PValue
  | nullv : PValue
deriving DecidableEq, Repr

/-- View an optional integer field as the Python value it holds. -/
def pvalue_of : Option Int → PValue
  | some n => .int n
  | none => .nullv

/-- Observable actions recorded while dispatching one update. -/
inductive Ev where
  | invoked : Handler → Update → Ev
  | policyCalled : Exn → Bool → Ev
  | defaultReporter : Exn → Ev
deriving DecidableEq, Repr

/-- State of a `Poller` object.  `ts` is `Option Int` because
`_fail_handler` assigns `fail.ts`, which is `Optional[int]`.  The
`callbacks` dict is a map from update type to stored callback, and the
installed `error_handler` is its documented contract `exception → bool`. -/
structure Poller where
  server : String
  key : String
  ts : Option Int
  wait : Int
  ownsSession : Bool
  sessionOpen : Bool
  running : Bool
  task : Option TaskState
  callbacks : String → Option Handler
  errorHandler : Exn → Bool

/-- Overwriting insertion into a string-keyed dict,
`d[k] = v` in Python. -/
def dict_insert (d : String → Option Handler) (k : String) (v : Handler) :
    String → Option Handler :=
  fun s => if s = k then some v else d s

/-- Lookup in an association-list map (used to inspect the `params`
dict built by the code). -/
def dict_lookup {α : Type} (d : List (String × α)) (k : String) : Option α :=
  (d.find? (fun kv => kv.1 == k)).map Prod.snd

/-- The constructor `Poller.__init__`: `session?` is the optional
caller-supplied `ClientSession` (abstracted to an id);
`_owns_session = session is None`; `callbacks` starts as
`{'': self._no_op}`; the default `error_handler` is `Poller._error_handler`,
which prints and returns `True`. -/
def mkPoller (server key : String) (ts wait : Int) (session? : Option Nat) : Poller :=
  { server := server
    key := key
    ts := some ts
    wait := wait
    ownsSession := session?.isNone
    sessionOpen := true
    running := false
    task := none
    callbacks := fun s => if s = "" then some .noOp else none
    errorHandler := fun _ => true }

namespace Poller

/-- The hook `Poller._prepare_update`, which in this class is the
identity. -/
def prepare_update (update : Update) : Update := update

/-- The property `Poller.params`: the dict literal built from the
object's fields. -/
def params (p : Poller) : List (String × PValue) :=
  [("act", .str "a_check"),
   ("key", .str p.key),
   ("ts", pvalue_of p.ts),
   ("wait", .int p.wait)]

/-- Reading the `params` property as a method call on the object: the
getter only reads fields, so the post-state is the unchanged object. -/
def params_m (p : Poller) : List (String × PValue) × Poller :=
  (p.params, p)

/-- The default failure handler `Poller._fail_handler`: on code 1 assign
`self.ts = fail.ts`; any other code is ignored. -/
def fail_handler_default (p : Poller) (fail : Failed) : Poller :=
  if fail.code = 1 then { p with ts := fail.ts } else p

/-- `Poller.start_polling`: when not running, set `running` and create
the background task. -/
def start_polling (p : Poller) : Poller :=
  if p.running then p
  else { p with running := true, task := some .active }

/-- `Poller.stop_polling`: when running, clear `running` and call
`task.cancel()`, which only requests cancellation of the task.  The
`task` attribute itself is not cleared. -/
def stop_polling (p : Poller) : Poller :=
  if p.running then
    { p with running := false, task := p.task.map (fun _ => .cancelling) }
  else p

/-- A lifecycle call, for reasoning about call sequences. -/
inductive LifecycleOp where
  | start
  | stop
deriving DecidableEq, Repr

/-- Apply one lifecycle call. -/
def apply_op (p : Poller) : LifecycleOp → Poller
  | .start => p.start_polling
  | .stop => p.stop_polling

/-- Apply a sequence of lifecycle calls, first one first. -/
def run_ops (p : Poller) (ops : List LifecycleOp) : Poller :=
  ops.foldl apply_op p

/-- `Poller.dispose`: stop polling when running, then close the session
when it was created internally.  The second component counts the
`session.close()` calls this `dispose` call performs. -/
def dispose (p : Poller) : Poller × Nat :=
  let p1 := if p.running then p.stop_polling else p
  if p1.ownsSession then ({ p1 with sessionOpen := false }, 1) else (p1, 0)

/-- `Poller.on` (spelled `on_` because `on` is taken by notation):
register a callback for an update type
(`self.callbacks[update_type] = callback`). -/
def on_ (p : Poller) (update_type : String) (callback : Handler) : Poller :=
  { p with callbacks := dict_insert p.callbacks update_type callback }

/-- `Poller.default`: set the fallback callback
(`self.callbacks[''] = callback`). -/
def default (p : Poller) (callback : Handler) : Poller :=
  { p with callbacks := dict_insert p.callbacks "" callback }

/-- `Poller.ignore`: bind an update type to the reserved no-op
(`self.callbacks[update_type] = self._no_op`). -/
def ignore (p : Poller) (update_type : String) : Poller :=
  { p with callbacks := dict_insert p.callbacks update_type .noOp }

/-- `Poller.on_error`: install an error handler. -/
def on_error (p : Poller) (handler : Exn → Bool) : Poller :=
  { p with errorHandler := handler }

/-- The `try` block of `Poller._handle`: read `update['type']`, prepare
the update, then call the callback registered for the type, falling back
to `self.callbacks['']`.  Returns the trace of the block together with
the exception it raises, if any (a raising callback is still recorded as
invoked; a miss on both keys is a `KeyError` from `self.callbacks['']`). -/
def tryBody (beh : Behavior) (p : Poller) (update : Update) :
    List Ev × Option Exn :=
  let update' := prepare_update update
  match p.callbacks update.type_ with
  | some cb => ([.invoked cb update'], apply_handler beh cb update')
  | none =>
    match p.callbacks "" with
    | some cb => ([.invoked cb update'], apply_handler beh cb update')
    | none => ([], some .keyError)

/-- `Poller._handle` with the exception it lets escape to its caller:
any exception of the `try` block is caught by `except Exception` and
routed to `self.error_handler`; when that returns falsy, the hard-coded
`Poller._error_handler` reporter runs.  The handler-clause itself only
evaluates the policy (a plain `bool`-returning function in this model)
and the printing reporter, so every branch completes normally: the
escaping-exception component is `none` in each case. -/
def handleE (beh : Behavior) (p : Poller) (update : Update) :
    List Ev × Option Exn :=
  match p.tryBody beh update with
  | (log, none) => (log, none)
  | (log, some e) =>
    if p.errorHandler e then
      (log ++ [.policyCalled e true], none)
    else
      (log ++ [.policyCalled e false, .defaultReporter e], none)

/-- The trace of `Poller._handle` on one update. -/
def handle (beh : Behavior) (p : Poller) (update : Update) : List Ev :=
  (p.handleE beh update).1

/-- The `for update in updates` loop of `Poller._poll`: handle each
update of the batch in order.  Handlers are external code that does not
mutate the poller in this model, so the state is fixed across the batch. -/
def dispatch_batch (beh : Behavior) (p : Poller) (updates : List Update) :
    List Ev :=
  updates.foldr (fun u acc => p.handle beh u ++ acc) []

/-- Exceptions that can escape `Poller._get_updates`. -/
inductive GetExn where
  | failed : Failed → GetExn
  | keyError : GetExn
deriving DecidableEq, Repr

/-- `Poller._get_updates` applied to an already-decoded body: when
`'failed' in data`, raise `Poller.Failed(data['failed'], data.get('ts'))`
before touching any state; otherwise assign `self.ts = data['ts']`
(a `KeyError` when absent, raised before the assignment) and return
`data['updates']` (a `KeyError` when absent, raised after the
assignment).  The error variant carries the state at the raise. -/
def get_updates (p : Poller) (data : Body) :
    Except (GetExn × Poller) (Poller × List Update) :=
  match data.failed? with
  | some code => .error (.failed ⟨code, data.ts?⟩, p)
  | none =>
    match data.ts? with
    | none => .error (.keyError, p)
    | some t =>
      let p' := { p with ts := some t }
      match data.updates? with
      | none => .error (.keyError, p')
      | some updates => .ok (p', updates)

/-- Result of one iteration of the `while self.running` loop in
`Poller._poll`: the post-state, the dispatch trace, and the exception
escaping the iteration (only `Poller.Failed` is caught there; a
`KeyError` kills the task). -/
structure StepResult where
  poller : Poller
  log : List Ev
  escaped : Option GetExn

/-- One iteration of `Poller._poll` on a given response body, with the
default failure handler installed: fetch and classify via `_get_updates`;
on `Poller.Failed` run `_fail_handler` and dispatch nothing; on success
dispatch every update of the batch in order. -/
def poll_step (beh : Behavior) (p : Poller) (data : Body) : StepResult :=
  match p.get_updates data with
  | .error (.failed f, p') =>
    { poller := p'.fail_handler_default f, log := [], escaped := none }
  | .error (.keyError, p') =>
    { poller := p', log := [], escaped := some .keyError }
  | .ok (p', updates) =>
    { poller := p', log := p'.dispatch_batch beh updates, escaped := none }

end Poller

/-! Concrete fixtures used by the witness theorems and counterexamples. -/

/-- A poller fresh from the constructor, with no caller-supplied session. -/
def p0 : Poller := mkPoller "server" "key" 1 25 none

/-- A behaviour where callback 7 raises exception 3 on every update and
every other callback returns normally. -/
def behRaise7 : Behavior := fun k _ => if k = 7 then some (.userExn 3) else none

/-- A behaviour where no callback ever raises. -/
def behOk : Behavior := fun _ _ => none

/-- An update of type `a`. -/
def updA : Update := { type_ := "a", payload := 1 }

/-- An update of type `z`. -/
def updZ : Update := { type_ := "z", payload := 2 }

/-! Theorems about the embedded code, one per claim of the
specification. -/

/-- C2: classification of a well-formed response body by
`Poller._get_updates` — a body with a `failed` field yields
`Poller.Failed` with `code = body.failed` and the recovered cursor
`body.ts` when present (`none` otherwise), leaving the state untouched;
a body without it yields the updates, with the cursor set to `body.ts`. -/
theorem get_updates_classifies (p : Poller) (data : Body) :
    (∀ code, data.failed? = some code →
      p.get_updates data = .error (.failed ⟨code, data.ts?⟩, p)) ∧
    (∀ t updates, data.failed? = none → data.ts? = some t →
      data.updates? = some updates →
      p.get_updates data = .ok ({ p with ts := some t }, updates)) := by
  constructor
  · intro code h
    simp [Poller.get_updates, h]
  · intro t updates h1 h2 h3
    simp [Poller.get_updates, h1, h2, h3]

/-- C2 witness: the classification evaluated on the body
`(failed: 2, ts: 42)` and on the body `(ts: 7, updates: [updA])`. -/
theorem get_updates_classifies_witness :
    p0.get_updates { failed? := some 2, ts? := some 42, updates? := none } =
      .error (.failed ⟨2, some 42⟩, p0) ∧
    p0.get_updates { failed? := none, ts? := some 7, updates? := some [updA] } =
      .ok ({ p0 with ts := some 7 }, [updA]) :=
  ⟨(get_updates_classifies p0 _).1 2 rfl,
   (get_updates_classifies p0 _).2 7 [updA] rfl rfl rfl⟩

/-- C9: the `params` property returns exactly the dict
`(act: a_check, key: sessionKey, ts: cursor, wait: waitSeconds)` — those
four keys in order, each bound to the corresponding field — and reading
it has no side effect: the post-state is the unchanged poller. -/
theorem params_exact_and_pure (p : Poller) :
    p.params.map Prod.fst = ["act", "key", "ts", "wait"] ∧
    dict_lookup p.params "act" = some (.str "a_check") ∧
    dict_lookup p.params "key" = some (.str p.key) ∧
    dict_lookup p.params "ts" = some (pvalue_of p.ts) ∧
    dict_lookup p.params "wait" = some (.int p.wait) ∧
    (p.params_m).1 = p.params ∧ (p.params_m).2 = p := by
  refine ⟨rfl, ?_, ?_, ?_, ?_, rfl, rfl⟩ <;> rfl

/-- C1: when the callback selected for an update raises, `_handle`
catches the exception and calls the installed error policy on it; a
falsy policy result makes the hard-coded default reporter run; no
exception ever escapes `_handle` to the poll loop (for any update); and
the loop still dispatches the remaining updates of the batch in order. -/
theorem handler_exception_isolated (beh : Behavior) (p : Poller)
    (u : Update) (rest : List Update) (cb : Handler) (e : Exn)
    (hcb : p.callbacks u.type_ = some cb ∨
      (p.callbacks u.type_ = none ∧ p.callbacks "" = some cb))
    (hraise : apply_handler beh cb (Poller.prepare_update u) = some e) :
    (∀ v, (p.handleE beh v).2 = none) ∧
    (p.errorHandler e = true →
      p.handle beh u =
        [.invoked cb (Poller.prepare_update u), .policyCalled e true]) ∧
    (p.errorHandler e = false →
      p.handle beh u =
        [.invoked cb (Poller.prepare_update u), .policyCalled e false,
         .defaultReporter e]) ∧
    p.dispatch_batch beh (u :: rest) =
      p.handle beh u ++ p.dispatch_batch beh rest := by
  refine ⟨?_, ?_, ?_, rfl⟩
  · intro v
    unfold Poller.handleE
    rcases h : p.tryBody beh v with ⟨log, exn⟩
    cases exn with
    | none => rfl
    | some e' => by_cases hp : p.errorHandler e' <;> simp [hp]
  · intro hpol
    rcases hcb with hcb | ⟨hmiss, hdef⟩
    · simp [Poller.handle, Poller.handleE, Poller.tryBody, hcb, hraise, hpol]
    · simp [Poller.handle, Poller.handleE, Poller.tryBody, hmiss, hdef,
        hraise, hpol]
  · intro hpol
    rcases hcb with hcb | ⟨hmiss, hdef⟩
    · simp [Poller.handle, Poller.handleE, Poller.tryBody, hcb, hraise, hpol]
    · simp [Poller.handle, Poller.handleE, Poller.tryBody, hmiss, hdef,
        hraise, hpol]

/-- C1 witness: a poller whose callback for type `a` raises and whose
installed policy declines to handle the exception, evaluated on the
batch consisting of that update followed by one of type `z`. -/
theorem handler_exception_isolated_witness :
    ((p0.on_ "a" (.user 7)).on_error (fun _ => false)).handle behRaise7 updA =
      [.invoked (.user 7) updA, .policyCalled (.userExn 3) false,
       .defaultReporter (.userExn 3)] ∧
    ((p0.on_ "a" (.user 7)).on_error (fun _ => false)).dispatch_batch behRaise7
        [updA, updZ] =
      ((p0.on_ "a" (.user 7)).on_error (fun _ => false)).handle behRaise7 updA ++
        ((p0.on_ "a" (.user 7)).on_error (fun _ => false)).dispatch_batch
          behRaise7 [updZ] := by
  have h := handler_exception_isolated behRaise7
    ((p0.on_ "a" (.user 7)).on_error (fun _ => false)) updA [updZ]
    (.user 7) (.userExn 3) (Or.inl (by rfl)) (by rfl)
  exact ⟨h.2.2.1 rfl, h.2.2.2⟩

/-- C3: on an iteration whose body carries a `failed` field, nothing is
dispatched; the default failure handler sets the cursor to the recovered
`ts` exactly when the code is 1 — so the next request's `ts` parameter
is the recovered value — and for codes 2 and 3 it leaves the whole state
unchanged. -/
theorem failure_iteration_no_dispatch (beh : Behavior) (p : Poller)
    (data : Body) (code : Int) (h : data.failed? = some code) :
    (p.poll_step beh data).log = [] ∧
    (code = 1 →
      (p.poll_step beh data).poller = { p with ts := data.ts? } ∧
      dict_lookup (p.poll_step beh data).poller.params "ts" =
        some (pvalue_of data.ts?)) ∧
    (code = 2 ∨ code = 3 → (p.poll_step beh data).poller = p) := by
  refine ⟨?_, ?_, ?_⟩
  · simp [Poller.poll_step, Poller.get_updates, h]
  · intro hc
    subst hc
    constructor
    · simp [Poller.poll_step, Poller.get_updates, h, Poller.fail_handler_default]
    · simp [Poller.poll_step, Poller.get_updates, h, Poller.fail_handler_default,
        Poller.params, dict_lookup]
  · intro hc
    have hne : code ≠ 1 := by rcases hc with hc | hc <;> omega
    simp [Poller.poll_step, Poller.get_updates, h, Poller.fail_handler_default, hne]

/-- C3 witness: the failure bodies `(failed: 1, ts: 42)` and
`(failed: 2)` processed from the fresh poller. -/
theorem failure_iteration_no_dispatch_witness :
    (p0.poll_step behOk { failed? := some 1, ts? := some 42, updates? := none }).log
      = [] ∧
    (p0.poll_step behOk { failed? := some 1, ts? := some 42, updates? := none }).poller
      = { p0 with ts := some 42 } ∧
    (p0.poll_step behOk { failed? := some 2, ts? := none, updates? := none }).poller
      = p0 := by
  have h1 := failure_iteration_no_dispatch behOk p0
    { failed? := some 1, ts? := some 42, updates? := none } 1 rfl
  have h2 := failure_iteration_no_dispatch behOk p0
    { failed? := some 2, ts? := none, updates? := none } 2 rfl
  exact ⟨h1.1, (h1.2.1 rfl).1, h2.2.2 (Or.inl rfl)⟩

/-- C4: dispatch of one event — a type with an explicit binding gets its
own callback invoked with the prepared update; a type with no binding
gets the default-slot callback; and after `ignore(t)` an update of type
`t` produces exactly one invocation of the reserved no-op, so no user
callback (own or default) ever sees it. -/
theorem dispatch_selects_handler (beh : Behavior) (p : Poller)
    (u : Update) (cb : Handler) :
    (p.callbacks u.type_ = some cb →
      Ev.invoked cb (Poller.prepare_update u) ∈ p.handle beh u) ∧
    (p.callbacks u.type_ = none → p.callbacks "" = some cb →
      Ev.invoked cb (Poller.prepare_update u) ∈ p.handle beh u) ∧
    ((p.ignore u.type_).handle beh u =
      [.invoked .noOp (Poller.prepare_update u)] ∧
     ∀ k v, Ev.invoked (.user k) v ∉ (p.ignore u.type_).handle beh u) := by
  refine ⟨?_, ?_, ?_, ?_⟩
  · intro hcb
    rcases h : apply_handler beh cb (Poller.prepare_update u) with _ | e
    · simp [Poller.handle, Poller.handleE, Poller.tryBody, hcb, h]
    · by_cases hp : p.errorHandler e <;>
        simp [Poller.handle, Poller.handleE, Poller.tryBody, hcb, h, hp]
  · intro hmiss hdef
    rcases h : apply_handler beh cb (Poller.prepare_update u) with _ | e
    · simp [Poller.handle, Poller.handleE, Poller.tryBody, hmiss, hdef, h]
    · by_cases hp : p.errorHandler e <;>
        simp [Poller.handle, Poller.handleE, Poller.tryBody, hmiss, hdef, h, hp]
  · simp [Poller.handle, Poller.handleE, Poller.tryBody, Poller.ignore,
      dict_insert, apply_handler]
  · intro k v
    simp [Poller.handle, Poller.handleE, Poller.tryBody, Poller.ignore,
      dict_insert, apply_handler]

/-- C4 witness: a poller binding type `a` to callback 5, evaluated on an
update of type `a` (explicit binding), an update of type `z` (default
slot, still the initial no-op), and on type `z` after `ignore(z)`. -/
theorem dispatch_selects_handler_witness :
    Ev.invoked (.user 5) updA ∈ (p0.on_ "a" (.user 5)).handle behOk updA ∧
    Ev.invoked .noOp updZ ∈ (p0.on_ "a" (.user 5)).handle behOk updZ ∧
    ((p0.on_ "a" (.user 5)).ignore "z").handle behOk updZ =
      [.invoked .noOp updZ] := by
  have ha := dispatch_selects_handler behOk (p0.on_ "a" (.user 5)) updA (.user 5)
  have hz := dispatch_selects_handler behOk (p0.on_ "a" (.user 5)) updZ .noOp
  exact ⟨ha.1 (by rfl), hz.2.1 (by rfl) (by rfl), hz.2.2.1⟩

/-- C10: the default slot is the entry of the `callbacks` dict at the
empty-string key, shared with the type-keyed bindings — `on('', h)` is
the very same state change as `default(h)`, and `ignore('')` the same as
`default(no_op)`; consequently, after `on('', h)` every update whose
type has no explicit binding is handed to `h`, and after `ignore('')`
such an update is silenced: its dispatch is exactly one no-op
invocation. -/
theorem default_slot_is_empty_key (p : Poller) (cb : Handler)
    (beh : Behavior) (u : Update) :
    p.on_ "" cb = p.default cb ∧
    p.ignore "" = p.default .noOp ∧
    ((p.on_ "" cb).callbacks u.type_ = none →
      Ev.invoked cb (Poller.prepare_update u) ∈ (p.on_ "" cb).handle beh u) ∧
    ((p.ignore "").callbacks u.type_ = none →
      (p.ignore "").handle beh u = [.invoked .noOp (Poller.prepare_update u)]) := by
  refine ⟨rfl, rfl, ?_, ?_⟩
  · intro hmiss
    simp only [Poller.on_] at hmiss
    have hdef : dict_insert p.callbacks "" cb "" = some cb := by
      simp [dict_insert]
    rcases h : apply_handler beh cb (Poller.prepare_update u) with _ | e
    · simp [Poller.handle, Poller.handleE, Poller.tryBody, Poller.on_, hmiss,
        hdef, h]
    · by_cases hp : p.errorHandler e <;>
        simp [Poller.handle, Poller.handleE, Poller.tryBody, Poller.on_, hmiss,
          hdef, h, hp]
  · intro hmiss
    simp only [Poller.ignore] at hmiss
    have hdef : dict_insert p.callbacks "" Handler.noOp "" = some .noOp := by
      simp [dict_insert]
    simp [Poller.handle, Poller.handleE, Poller.tryBody, Poller.ignore, hmiss,
      hdef, apply_handler]

/-- C10 witness: replacing the default slot via `on('', 9)` routes the
unbound type `z` to callback 9, and `ignore('')` silences it. -/
theorem default_slot_is_empty_key_witness :
    Ev.invoked (.user 9) updZ ∈ (p0.on_ "" (.user 9)).handle behOk updZ ∧
    (p0.ignore "").handle behOk updZ = [.invoked .noOp updZ] := by
  have h := default_slot_is_empty_key p0 (.user 9) behOk updZ
  exact ⟨h.2.2.1 (by rfl), h.2.2.2 (by rfl)⟩

/-- The background task has fully exited (vacuously so when no task was
ever created). -/
def Poller.task_exited (p : Poller) : Prop :=
  ∀ t, p.task = some t → t = TaskState.exited

/-- C5 counterexample: `stop_polling` only calls `task.cancel()` and
never awaits the task, so immediately after `stop_polling` returns on a
freshly started poller the task is merely cancel-requested, not exited. -/
theorem stop_returns_before_task_exit :
    (p0.start_polling.stop_polling).task = some .cancelling ∧
    ¬ (p0.start_polling.stop_polling).task_exited := by
  refine ⟨rfl, fun h => ?_⟩
  exact TaskState.noConfusion (h .cancelling rfl)

/-- C5 amended: `stop()` requests cancellation of the background task
and returns without waiting for the task to exit; calling `stop()` a
second time (when already stopped) is safe and a no-op. -/
theorem stop_requests_cancellation (p : Poller) :
    (p.running = false → p.stop_polling = p) ∧
    (p.running = true → p.stop_polling.running = false ∧
      p.stop_polling.task = p.task.map (fun _ => TaskState.cancelling)) ∧
    p.stop_polling.stop_polling = p.stop_polling := by
  refine ⟨fun h => ?_, fun h => ?_, ?_⟩
  · simp [Poller.stop_polling, h]
  · simp [Poller.stop_polling, h]
  · by_cases hr : p.running <;> simp [Poller.stop_polling, hr]

/-- C5 amended, witness: a second `stop` on the fresh (stopped) poller
is the identity, and stopping a started poller clears `running` while
only cancel-requesting the task. -/
theorem stop_requests_cancellation_witness :
    p0.stop_polling = p0 ∧
    p0.start_polling.stop_polling.running = false ∧
    p0.start_polling.stop_polling.task =
      p0.start_polling.task.map (fun _ => TaskState.cancelling) := by
  have h1 := stop_requests_cancellation p0
  have h2 := stop_requests_cancellation p0.start_polling
  exact ⟨h1.1 rfl, (h2.2.1 rfl).1, (h2.2.1 rfl).2⟩

/-- C6 counterexample: `stop_polling` never clears the `task` attribute,
so after the call sequence `start(); stop()` the poller is not running
yet still holds a task handle — the claimed "task set iff running" fails
in the only-if direction. -/
theorem task_handle_outlives_running :
    (p0.run_ops [.start, .stop]).running = false ∧
    (p0.run_ops [.start, .stop]).task = some .cancelling ∧
    ¬ ((p0.run_ops [.start, .stop]).task ≠ none ↔
        (p0.run_ops [.start, .stop]).running = true) := by
  refine ⟨rfl, rfl, fun h => ?_⟩
  have hr : (p0.run_ops [.start, .stop]).running = true :=
    h.mp (by rw [show (p0.run_ops [.start, .stop]).task = some .cancelling
      from rfl]; simp)
  exact Bool.noConfusion ((rfl :
    (p0.run_ops [.start, .stop]).running = false) ▸ hr)

/-- In any state satisfying "running implies a task handle", one more
lifecycle call preserves it, hence so does any call sequence. -/
theorem run_ops_keeps_task_when_running (p : Poller)
    (hp : p.running = true → p.task ≠ none) (ops : List Poller.LifecycleOp) :
    (p.run_ops ops).running = true → (p.run_ops ops).task ≠ none := by
  induction ops generalizing p with
  | nil => exact hp
  | cons op rest ih =>
    show ((p.apply_op op).run_ops rest).running = true →
      ((p.apply_op op).run_ops rest).task ≠ none
    apply ih
    cases op with
    | start =>
      by_cases hr : p.running
      · have heq : p.apply_op .start = p := by
          simp [Poller.apply_op, Poller.start_polling, hr]
        rw [heq]; exact hp
      · simp [Poller.apply_op, Poller.start_polling, hr]
    | stop =>
      by_cases hr : p.running
      · simp [Poller.apply_op, Poller.stop_polling, hr]
      · have heq : p.apply_op .stop = p := by
          simp [Poller.apply_op, Poller.stop_polling, hr]
        rw [heq]; exact hp

/-- C6 amended: in every state reachable from a freshly constructed
poller by any sequence of `start()`/`stop()` calls, a task handle is set
whenever `running` is true (the converse fails: `stop` leaves the stale
handle behind), and `start()` while already running is a no-op, so at
most one background task is created per stopped-to-running transition. -/
theorem running_implies_task_set (server key : String) (ts wait : Int)
    (session? : Option Nat) (ops : List Poller.LifecycleOp) (p : Poller) :
    (((mkPoller server key ts wait session?).run_ops ops).running = true →
      ((mkPoller server key ts wait session?).run_ops ops).task ≠ none) ∧
    (p.running = true → p.start_polling = p) := by
  constructor
  · exact run_ops_keeps_task_when_running _ (by simp [mkPoller]) ops
  · intro h
    simp [Poller.start_polling, h]

/-- C6 amended, witness: after the single call `start()` the fresh
poller is running and holds a task handle, and a second `start()` there
changes nothing. -/
theorem running_implies_task_set_witness :
    (p0.run_ops [.start]).task ≠ none ∧
    p0.start_polling.start_polling = p0.start_polling := by
  have h := running_implies_task_set "server" "key" 1 25 none [.start]
    p0.start_polling
  exact ⟨h.1 rfl, h.2 rfl⟩

/-- C7 counterexample: a successful (non-failure) response carrying a
smaller `ts` moves the cursor backwards — `_get_updates` assigns the
response's `ts` unconditionally, so the cursor does not "only ever move
forward or get replaced by a failure-recovery response". -/
theorem cursor_decreases_on_success :
    ({ failed? := none, ts? := some 0, updates? := some [] } : Body).failed?
      = none ∧
    (({ p0 with ts := some 5 }).poll_step behOk
        { failed? := none, ts? := some 0, updates? := some [] }).poller.ts
      = some 0 ∧
    (0 : Int) < 5 := by
  refine ⟨rfl, rfl, ?_⟩
  norm_num

/-- C7 amended: across one loop iteration, the cursor is the only field
that can change, and it is mutated only by the poll loop on success
(replaced wholesale by the response's `ts`, with no forward guarantee)
or by the default recovery policy on a code-1 failure (replaced by the
recovered `ts`); in every other case — including event dispatch, which
never touches the state — it is unchanged. -/
theorem cursor_mutation_sources (beh : Behavior) (p : Poller) (data : Body) :
    (p.poll_step beh data).poller =
      { p with ts := (p.poll_step beh data).poller.ts } ∧
    ((p.poll_step beh data).poller.ts = p.ts ∨
     (data.failed? = none ∧ (p.poll_step beh data).poller.ts = data.ts?) ∨
     (data.failed? = some 1 ∧ (p.poll_step beh data).poller.ts = data.ts?)) := by
  rcases data with ⟨failed?, ts?, updates?⟩
  cases failed? with
  | some code =>
    by_cases hc : code = 1 <;>
      simp [Poller.poll_step, Poller.get_updates, Poller.fail_handler_default, hc]
  | none =>
    cases ts? with
    | none => simp [Poller.poll_step, Poller.get_updates]
    | some t =>
      cases updates? with
      | none => simp [Poller.poll_step, Poller.get_updates]
      | some updates => simp [Poller.poll_step, Poller.get_updates]

/-- C8: `dispose()` closes the session exactly once when the poller
created it internally (constructed without a caller-supplied session)
and never closes a caller-supplied one; it stops polling first when
running, leaving the poller stopped in every case; and the constructor
records internal creation exactly when no session was passed. -/
theorem dispose_closes_only_owned (p : Poller) (server key : String)
    (ts wait : Int) (sess : Nat) :
    (p.dispose.2 = if p.ownsSession then 1 else 0) ∧
    (p.ownsSession = false → p.dispose.1.sessionOpen = p.sessionOpen) ∧
    (p.ownsSession = true → p.dispose.1.sessionOpen = false) ∧
    p.dispose.1.running = false ∧
    (p.running = true →
      p.dispose.1.task = p.task.map (fun _ => TaskState.cancelling)) ∧
    (mkPoller server key ts wait (some sess)).ownsSession = false ∧
    (mkPoller server key ts wait none).ownsSession = true := by
  refine ⟨?_, fun h => ?_, fun h => ?_, ?_, fun h => ?_, rfl, rfl⟩ <;>
    by_cases hr : p.running <;>
      by_cases ho : p.ownsSession <;>
        simp_all [Poller.dispose, Poller.stop_polling]

/-- C8 witness: disposing the fresh poller (internally created session)
closes it once; disposing a poller built around a caller-supplied
session leaves that session untouched; disposing a started poller
cancel-requests its task. -/
theorem dispose_closes_only_owned_witness :
    p0.dispose.2 = 1 ∧
    (mkPoller "server" "key" 1 25 (some 4)).dispose.1.sessionOpen =
      (mkPoller "server" "key" 1 25 (some 4)).sessionOpen ∧
    p0.dispose.1.sessionOpen = false ∧
    p0.start_polling.dispose.1.task =
      p0.start_polling.task.map (fun _ => TaskState.cancelling) := by
  have h0 := dispose_closes_only_owned p0 "server" "key" 1 25 4
  have hs := dispose_closes_only_owned (mkPoller "server" "key" 1 25 (some 4))
    "server" "key" 1 25 4
  have hr := dispose_closes_only_owned p0.start_polling "server" "key" 1 25 4
  exact ⟨h0.1, hs.2.1 rfl, h0.2.2.1 rfl, hr.2.2.2.2.1 rfl⟩
